import Mathlib

/-!
Verification of the Rate Limiting & Quota Engine
(`fingerprint_api/services/rate_limit_service.py`).

The Python service is shallowly embedded: float token counts and endpoint
costs become `ℚ`, Unix timestamps become `ℤ`, Python dicts become
association lists with update-in-place semantics, and the mutable
`RateLimitService` object becomes an explicit `ServiceState` threaded
through the operations.  `check_limit`, which raises on rejection, returns
`Except RateLimitError RateLimitResponse` together with the updated state
(state mutations performed before the raise are kept, exactly as in the
Python code).
-/

namespace RateLimitSvc

/-- `QuotaTier` enum from the source. -/
inductive QuotaTier : Type
  | Free
  | Pro
  | Enterprise
  | Partner
deriving DecidableEq, Repr

/-- `QuotaTier.value` (the Python enum's string value). -/
def QuotaTier.value : QuotaTier → String
  | .Free => "free"
  | .Pro => "pro"
  | .Enterprise => "enterprise"
  | .Partner => "partner"

/-- Modelled from the spec: `EndpointConfig` comes from
`fingerprint_api.schemas.rate_limit`, which is not among the source files;
the spec states an endpoint's cost defaults to 1.0. -/
structure EndpointConfig where
  endpoint : String
  cost : ℚ := 1
deriving DecidableEq, Repr

/-- Rational addition, written through `mkRat` so that concrete runs of the
service reduce inside the kernel (the library's `Rat.add` is irreducible);
`qAdd_eq` below identifies it with `+`. -/
def qAdd (a b : ℚ) : ℚ :=
  mkRat (a.num * b.den + b.num * a.den) (a.den * b.den)

/-- Rational subtraction through `mkRat`; equals `-` by `qSub_eq`. -/
def qSub (a b : ℚ) : ℚ :=
  mkRat (a.num * b.den - b.num * a.den) (a.den * b.den)

/-- Rational multiplication through `mkRat`; equals `*` by `qMul_eq`. -/
def qMul (a b : ℚ) : ℚ :=
  mkRat (a.num * b.num) (a.den * b.den)

/-- Python's `min` on two numbers (returns the first argument on ties);
equals `min` by `qMin_eq`. -/
def qMin (a b : ℚ) : ℚ :=
  if b < a then b else a

/-- `RateLimitError`: error type, message, retry-after seconds, reset time. -/
structure RateLimitError where
  error_type : String
  message : String
  retry_after : ℤ := 60
  reset_at : Option ℤ := none
deriving DecidableEq, Repr

/-- `UserQuota` dataclass: one token bucket per authenticated identity. -/
structure UserQuota where
  user_id : String
  tier : QuotaTier
  available_tokens : ℚ
  last_refill : ℤ
  month_requests : ℕ := 0
  total_requests : ℕ := 0
deriving DecidableEq, Repr

/-- `UserQuota.has_quota`: whether the bucket holds at least `cost` tokens. -/
def UserQuota.has_quota (q : UserQuota) (cost : ℚ) : Bool :=
  decide (cost ≤ q.available_tokens)

/-- `UserQuota.consume`: spend `cost` tokens and bump the lifetime counters. -/
def UserQuota.consume (q : UserQuota) (cost : ℚ) : UserQuota :=
  { q with
    available_tokens := qSub q.available_tokens cost
    total_requests := q.total_requests + 1
    month_requests := q.month_requests + 1 }

/-- Python `int(...)` on a float: truncation toward zero
(sign times the truncated quotient of absolute values). -/
def pyInt (q : ℚ) : ℤ :=
  Int.sign q.num * (q.num.natAbs / q.den : ℕ)

/-- Association-list lookup with Python-dict key semantics. -/
def getKey {α : Type} (k : String) : List (String × α) → Option α
  | [] => none
  | (k2, v) :: rest => if k = k2 then some v else getKey k rest

/-- Association-list update: overwrite an existing key in place, append a
new key at the end (Python dicts keep insertion order). -/
def setKey {α : Type} (k : String) (v : α) : List (String × α) → List (String × α)
  | [] => [(k, v)]
  | (k2, v2) :: rest => if k = k2 then (k, v) :: rest else (k2, v2) :: setKey k v rest

/-- `self.tier_limits`: per-minute limit and monthly quota per tier
(`none` = unlimited). -/
def tier_limits : QuotaTier → Option ℕ × Option ℕ
  | .Free => (some 100, some 50000)
  | .Pro => (some 1000, some 1000000)
  | .Enterprise => (none, none)
  | .Partner => (none, none)

/-- `_get_minute_limit`: the tier's per-minute limit, with the
999 999 999 sentinel for unlimited tiers. -/
def get_minute_limit (tier : QuotaTier) : ℕ :=
  (tier_limits tier).1.getD 999999999

/-- `_get_token_bucket_size`: the minute limit as a float. -/
def get_token_bucket_size (tier : QuotaTier) : ℚ :=
  (get_minute_limit tier : ℚ)

/-- `_refill_tokens`: if fewer than 60 seconds have passed since
`last_refill`, do nothing; otherwise credit `bucket_size * elapsed/60`
tokens capped at 1.5 × bucket size and stamp `last_refill = now`. -/
def refill_tokens (now : ℤ) (q : UserQuota) : UserQuota :=
  let time_passed : ℤ := now - q.last_refill
  if time_passed < 60 then q
  else
    let bucket_size := get_token_bucket_size q.tier
    { q with
      available_tokens :=
        qMin (qMul bucket_size (mkRat 3 2))
          (qAdd q.available_tokens (qMul bucket_size (mkRat time_passed 60)))
      last_refill := now }

/-- `_check_monthly_quota`: `month_requests < monthlyQuota`, always true for
unlimited tiers. -/
def check_monthly_quota (q : UserQuota) : Bool :=
  match (tier_limits q.tier).2 with
  | none => true
  | some tq => decide (q.month_requests < tq)

/-- `_check_minute_limit`: refill, then test `has_quota`.  The refilled
quota is returned because the Python code mutates the stored object. -/
def check_minute_limit (now : ℤ) (q : UserQuota) (cost : ℚ) : Bool × UserQuota :=
  let q2 := refill_tokens now q
  (q2.has_quota cost, q2)

/-- `_check_ip_limit`: fixed 60-second window of at most 30 (integer)
cost units per IP; returns the allow decision and the updated window map. -/
def check_ip_limit (now : ℤ) (client_ip : Option String) (cost : ℚ)
    (ipq : List (String × ℤ × ℤ)) : Bool × List (String × ℤ × ℤ) :=
  match client_ip with
  | none => (true, ipq)
  | some ip =>
    match getKey ip ipq with
    | none => (true, setKey ip (now, pyInt cost) ipq)
    | some (last_reset, count) =>
      if now - last_reset > 60 then
        (true, setKey ip (now, pyInt cost) ipq)
      else
        let new_count := count + pyInt cost
        if new_count > 30 then (false, ipq)
        else (true, setKey ip (last_reset, new_count) ipq)

/-- The mutable service state: quota dict, IP-window dict, endpoint
registry, and the four metrics counters of `self.metrics`. -/
structure ServiceState where
  user_quotas : List (String × UserQuota) := []
  ip_quotas : List (String × ℤ × ℤ) := []
  endpoints : List (String × EndpointConfig) := []
  metrics_total_requests : ℕ := 0
  metrics_total_rejected : ℕ := 0
  metrics_cache_hits : ℕ := 0
  metrics_cache_misses : ℕ := 0
deriving DecidableEq, Repr

/-- The state of a freshly constructed `RateLimitService`. -/
def initialState : ServiceState := {}

/-- `register_endpoint`: record an endpoint's cost multiplier. -/
def register_endpoint (s : ServiceState) (endpoint : String) (cost : ℚ) : ServiceState :=
  { s with endpoints := setKey endpoint { endpoint := endpoint, cost := cost } s.endpoints }

/-- `_get_or_create_user_quota`: cache hit returns the stored bucket;
otherwise a bucket is created with a full minute allowance. -/
def get_or_create_user_quota (s : ServiceState) (now : ℤ) (user_id : String)
    (tier : QuotaTier) : UserQuota × ServiceState :=
  match getKey user_id s.user_quotas with
  | some q => (q, { s with metrics_cache_hits := s.metrics_cache_hits + 1 })
  | none =>
    let q : UserQuota :=
      { user_id := user_id
        tier := tier
        available_tokens := get_token_bucket_size tier
        last_refill := now }
    (q, { s with
            metrics_cache_misses := s.metrics_cache_misses + 1
            user_quotas := setKey user_id q s.user_quotas })

/-- The `monthly_remaining` field of the success response, with Python
truthiness on the optional monthly quota. -/
def monthly_remaining_val (tier : QuotaTier) (q : UserQuota) : ℤ :=
  match (tier_limits tier).2 with
  | none => 999999999
  | some l => if l = 0 then 999999999 else max 0 ((l : ℤ) - (q.month_requests : ℤ))

/-- The dictionary returned by a successful `check_limit`. -/
structure RateLimitResponse where
  allowed : Bool
  remaining : ℤ
  reset_at : ℤ
  tier : QuotaTier
  monthly_remaining : ℤ
deriving DecidableEq, Repr

/-- The endpoint cost used by `check_limit`: the registered cost, or the
default `EndpointConfig` cost for unregistered endpoints. -/
def endpoint_cost (s : ServiceState) (endpoint : String) : ℚ :=
  ((getKey endpoint s.endpoints).getD { endpoint := endpoint }).cost

/-- `check_limit`: the decision call.  Returns the allow/deny result
together with the mutated service state; a raise in Python corresponds to
`.error` here, with all mutations made before the raise preserved. -/
def check_limit (s : ServiceState) (now : ℤ) (user_id : Option String)
    (user_tier : QuotaTier) (endpoint : String) (client_ip : Option String) :
    Except RateLimitError RateLimitResponse × ServiceState :=
  let s1 := { s with metrics_total_requests := s.metrics_total_requests + 1 }
  let cost := endpoint_cost s1 endpoint
  match user_id with
  | some uid =>
    let p := get_or_create_user_quota s1 now uid user_tier
    let quota := p.1
    let s2 := p.2
    if check_monthly_quota quota then
      let p2 := check_minute_limit now quota cost
      let s3 := { s2 with user_quotas := setKey uid p2.2 s2.user_quotas }
      if p2.1 then
        let q3 := p2.2.consume cost
        let s4 := { s3 with user_quotas := setKey uid q3 s3.user_quotas }
        (.ok { allowed := true
               remaining := max 0 (pyInt q3.available_tokens)
               reset_at := now + 60
               tier := user_tier
               monthly_remaining := monthly_remaining_val user_tier q3 }, s4)
      else
        (.error { error_type := "rate_limit_exceeded"
                  message := "Rate limit exceeded. Max "
                    ++ toString (get_minute_limit user_tier) ++ "/min"
                  retry_after := 60
                  reset_at := some (now + 60) },
         { s3 with metrics_total_rejected := s3.metrics_total_rejected + 1 })
    else
      (.error { error_type := "monthly_quota_exceeded"
                message := "Monthly quota exceeded for tier " ++ user_tier.value
                retry_after := 86400
                reset_at := some (now + 30 * 86400) },
       { s2 with metrics_total_rejected := s2.metrics_total_rejected + 1 })
  | none =>
    let p := check_ip_limit now client_ip cost s1.ip_quotas
    let s2 := { s1 with ip_quotas := p.2 }
    if p.1 then
      (.ok { allowed := true
             remaining := max 0 (pyInt (30 - cost))
             reset_at := now + 60
             tier := .Free
             monthly_remaining := 0 }, s2)
    else
      (.error { error_type := "rate_limit_exceeded"
                message := "IP rate limit exceeded. Max 30/min without API key"
                retry_after := 60
                reset_at := some (now + 60) },
       { s2 with metrics_total_rejected := s2.metrics_total_rejected + 1 })

/-- The error type of a `check_limit` outcome, `none` on success. -/
def errType : Except RateLimitError RateLimitResponse × ServiceState → Option String
  | (.error e, _) => some e.error_type
  | (.ok _, _) => none

/-- The dictionary returned by `get_metrics`. -/
structure MetricsReport where
  total_requests : ℕ
  total_rejected : ℕ
  rejection_rate : ℚ
  cache_hits : ℕ
  cache_misses : ℕ
  cache_hit_ratio : ℚ
  active_users : ℕ
  active_ips : ℕ
deriving DecidableEq, Repr

/-- `get_metrics`: raw counters plus the derived ratios, with the
division-by-zero guards of the source. -/
def get_metrics (s : ServiceState) : MetricsReport :=
  let total_checked := s.metrics_total_requests
  let total_rejected := s.metrics_total_rejected
  let cache_hits := s.metrics_cache_hits
  let cache_misses := s.metrics_cache_misses
  { total_requests := total_checked
    total_rejected := total_rejected
    rejection_rate :=
      if total_checked > 0 then mkRat (total_rejected : ℤ) total_checked else 0
    cache_hits := cache_hits
    cache_misses := cache_misses
    cache_hit_ratio :=
      if cache_hits + cache_misses > 0 then
        mkRat (cache_hits : ℤ) (cache_hits + cache_misses)
      else 0
    active_users := s.user_quotas.length
    active_ips := s.ip_quotas.length }

/-- Zero-pad a natural number below 10000 to four digits. -/
def pad4 (m : ℕ) : String :=
  if m < 10 then "000" ++ toString m
  else if m < 100 then "00" ++ toString m
  else if m < 1000 then "0" ++ toString m
  else toString m

/-- Python `:.4f` formatting of a nonnegative rational: four digits after
the decimal point, rounding to the nearest multiple of 1/10000. -/
def fmt4 (q : ℚ) : String :=
  let n := (round (q * 10000) : ℤ).toNat
  toString (n / 10000) ++ "." ++ pad4 (n % 10000)

/-- The `service="fingerprint-api"` label set on every exported series. -/
def svcLabel : String := "\x7bservice=\"fingerprint-api\"\x7d"

/-- `get_prometheus_metrics`, line by line (the source builds this list
and joins it with newlines). -/
def get_prometheus_lines (s : ServiceState) : List String :=
  let m := get_metrics s
  [ "# HELP rate_limit_total_requests Total requests processed"
  , "# TYPE rate_limit_total_requests counter"
  , "rate_limit_total_requests" ++ svcLabel ++ " " ++ toString m.total_requests
  , ""
  , "# HELP rate_limit_rejected_total Total requests rejected"
  , "# TYPE rate_limit_rejected_total counter"
  , "rate_limit_rejected_total" ++ svcLabel ++ " " ++ toString m.total_rejected
  , ""
  , "# HELP rate_limit_rejection_ratio Request rejection ratio"
  , "# TYPE rate_limit_rejection_ratio gauge"
  , "rate_limit_rejection_ratio" ++ svcLabel ++ " " ++ fmt4 m.rejection_rate
  , ""
  , "# HELP cache_hits_total Cache hit count"
  , "# TYPE cache_hits_total counter"
  , "cache_hits_total" ++ svcLabel ++ " " ++ toString m.cache_hits
  , ""
  , "# HELP cache_hit_ratio Cache hit ratio"
  , "# TYPE cache_hit_ratio gauge"
  , "cache_hit_ratio" ++ svcLabel ++ " " ++ fmt4 m.cache_hit_ratio
  , ""
  , "# HELP rate_limit_active_users Active users count"
  , "# TYPE rate_limit_active_users gauge"
  , "rate_limit_active_users" ++ svcLabel ++ " " ++ toString m.active_users
  , "" ]

/-- `get_prometheus_metrics`: the joined text exposition. -/
def get_prometheus_metrics (s : ServiceState) : String :=
  String.intercalate "\n" (get_prometheus_lines s)

/-- The six series names the spec requires the export to contain. -/
def requiredSeriesNames : List String :=
  [ "rate_limit_total_requests"
  , "rate_limit_rejected_total"
  , "rate_limit_rejection_ratio"
  , "cache_hits_total"
  , "cache_hit_ratio"
  , "rate_limit_active_users" ]

/-- Success test for a `check_limit` outcome. -/
def isOk {ε α : Type} : Except ε α → Bool
  | .ok _ => true
  | .error _ => false

/-- The bucket invariant claimed by the spec: tokens stay between 0 and
1.5 × the tier's per-minute limit. -/
def QuotaInv (q : UserQuota) : Prop :=
  0 ≤ q.available_tokens ∧
    q.available_tokens ≤ get_token_bucket_size q.tier * (3 / 2)

/-- Every bucket stored in a quota map satisfies `QuotaInv`. -/
def QuotasInv (l : List (String × UserQuota)) : Prop :=
  ∀ p ∈ l, QuotaInv p.2

/-- The service-level invariant of C4. -/
def StateInv (s : ServiceState) : Prop :=
  QuotasInv s.user_quotas

/-- All registered endpoint costs are nonnegative. -/
def EndpointCostsNonneg (s : ServiceState) : Prop :=
  ∀ p ∈ s.endpoints, 0 ≤ p.2.cost

/-- An operation of the engine's public surface: endpoint registration,
a bare refill of one identity's bucket, or a decision call. -/
inductive Op : Type
  | register (endpoint : String) (cost : ℚ)
  | refill (now : ℤ) (user_id : String)
  | check (now : ℤ) (user_id : Option String) (tier : QuotaTier)
      (endpoint : String) (client_ip : Option String)

/-- Run one operation against the service state. -/
def applyOp (s : ServiceState) : Op → ServiceState
  | .register ep c => register_endpoint s ep c
  | .refill now uid =>
    match getKey uid s.user_quotas with
    | none => s
    | some q =>
      { s with user_quotas := setKey uid (refill_tokens now q) s.user_quotas }
  | .check now uid tier ep ip => (check_limit s now uid tier ep ip).2

/-- Run a sequence of operations from a given state. -/
def applyOps (s : ServiceState) (ops : List Op) : ServiceState :=
  ops.foldl applyOp s

/-- The cost constraint of C4: registrations carry nonnegative costs. -/
def opCostNonneg : Op → Prop
  | .register _ c => 0 ≤ c
  | .refill _ _ => True
  | .check _ _ _ _ _ => True

instance (op : Op) : Decidable (opCostNonneg op) := by
  cases op <;> simp only [opCostNonneg] <;> infer_instance

/-- C2 scenario: a service with one registered endpoint of the given cost. -/
def c2State (cost : ℚ) : ServiceState :=
  register_endpoint initialState "fingerprint" cost

/-- C2 scenario: `n` consecutive authenticated Free-tier calls on a
non-advancing clock; returns whether all succeeded, and the final state. -/
def c2Run (cost : ℚ) : ℕ → Bool × ServiceState
  | 0 => (true, c2State cost)
  | n + 1 =>
    let p := c2Run cost n
    let r := check_limit p.2 0 (some "alice") .Free "fingerprint" none
    (p.1 && isOk r.1, r.2)

/-- C5 scenario: `n` consecutive unauthenticated calls from one IP at a
fixed time, on an endpoint of default cost 1. -/
def c5Run : ℕ → Bool × ServiceState
  | 0 => (true, initialState)
  | n + 1 =>
    let p := c5Run n
    let r := check_limit p.2 0 none .Free "lookup" (some "203.0.113.9")
    (p.1 && isOk r.1, r.2)

/-- C3 scenario: a Free-tier bucket whose month is exhausted while
per-minute tokens remain. -/
def qC3 : UserQuota :=
  { user_id := "u", tier := .Free, available_tokens := 5, last_refill := 0,
    month_requests := 50000, total_requests := 51000 }

/-- C3 scenario: the service owning `qC3`. -/
def sC3 : ServiceState :=
  { user_quotas := [("u", qC3)] }

/-- C7 scenario: month exhausted, tokens available, and a zero-cost
endpoint registered. -/
def sC7 : ServiceState :=
  { user_quotas := [("u", qC3)]
    endpoints := [("health", { endpoint := "health", cost := 0 })] }

/-- C9 scenario: a Free-tier bucket that is both month-exhausted and
fully token-exhausted, last refilled at time 0. -/
def qC9 : UserQuota :=
  { user_id := "u", tier := .Free, available_tokens := 0, last_refill := 0,
    month_requests := 50000, total_requests := 51000 }

/-- C9 scenario: the service owning `qC9`. -/
def sC9 : ServiceState :=
  { user_quotas := [("u", qC9)] }

/-- C5 counterexample scenario: an IP window already at count 30 and an
endpoint of fractional cost 3/5. -/
def sC5 : ServiceState :=
  { ip_quotas := [("203.0.113.9", (0, 30))]
    endpoints := [("cheap", { endpoint := "cheap", cost := mkRat 3 5 })] }

/-- C4 witness scenario: a short mixed operation sequence. -/
def c4Ops : List Op :=
  [ .register "lookup" 1
  , .check 0 (some "u") .Free "lookup" none
  , .refill 120 "u"
  , .check 120 none .Free "lookup" (some "203.0.113.9") ]

/-- `qAdd` is rational addition. -/
theorem qAdd_eq (a b : ℚ) : qAdd a b = a + b := by
  rw [qAdd, Rat.mkRat_eq_divInt, Rat.divInt_eq_div]
  have ha : ((a.den : ℚ)) ≠ 0 := by exact_mod_cast a.den_nz
  have hb : ((b.den : ℚ)) ≠ 0 := by exact_mod_cast b.den_nz
  conv_rhs => rw [← Rat.num_div_den a, ← Rat.num_div_den b]
  push_cast
  field_simp

/-- `qSub` is rational subtraction. -/
theorem qSub_eq (a b : ℚ) : qSub a b = a - b := by
  rw [qSub, Rat.mkRat_eq_divInt, Rat.divInt_eq_div]
  have ha : ((a.den : ℚ)) ≠ 0 := by exact_mod_cast a.den_nz
  have hb : ((b.den : ℚ)) ≠ 0 := by exact_mod_cast b.den_nz
  conv_rhs => rw [← Rat.num_div_den a, ← Rat.num_div_den b]
  push_cast
  field_simp
  ring

/-- `qMul` is rational multiplication. -/
theorem qMul_eq (a b : ℚ) : qMul a b = a * b := by
  rw [qMul, Rat.mkRat_eq_divInt, Rat.divInt_eq_div]
  have ha : ((a.den : ℚ)) ≠ 0 := by exact_mod_cast a.den_nz
  have hb : ((b.den : ℚ)) ≠ 0 := by exact_mod_cast b.den_nz
  conv_rhs => rw [← Rat.num_div_den a, ← Rat.num_div_den b]
  push_cast
  field_simp

/-- `qMin` is `min`. -/
theorem qMin_eq (a b : ℚ) : qMin a b = min a b := by
  rw [qMin]
  by_cases h : b < a
  · rw [if_pos h, min_eq_right h.le]
  · rw [if_neg h, min_eq_left (not_lt.mp h)]

/-- `mkRat` is division in `ℚ`. -/
theorem mkRat_cast_div (n : ℤ) (d : ℕ) : mkRat n d = (n : ℚ) / (d : ℚ) := by
  rw [Rat.mkRat_eq_divInt, Rat.divInt_eq_div]
  norm_num

/-- Looking up a key that was just set returns the new value. -/
theorem getKey_setKey_self {α : Type} (k : String) (v : α) :
    ∀ (l : List (String × α)), getKey k (setKey k v l) = some v
  | [] => by simp [setKey, getKey]
  | (k2, v2) :: rest => by
    by_cases hk : k = k2
    · simp [setKey, getKey, hk]
    · simp only [setKey, if_neg hk, getKey]
      exact getKey_setKey_self k v rest

/-- A successful lookup is a membership. -/
theorem getKey_mem {α : Type} {k : String} {v : α} :
    ∀ {l : List (String × α)}, getKey k l = some v → (k, v) ∈ l
  | [] => by intro h; simp [getKey] at h
  | (k2, v2) :: rest => by
    intro h
    rw [getKey] at h
    by_cases hk : k = k2
    · rw [if_pos hk] at h
      injection h with h2
      subst hk
      subst h2
      exact List.mem_cons_self _ _
    · rw [if_neg hk] at h
      exact List.mem_cons_of_mem _ (getKey_mem h)

/-- Membership after an update comes from the new pair or the old list. -/
theorem mem_setKey {α : Type} {p : String × α} {k : String} {v : α} :
    ∀ {l : List (String × α)}, p ∈ setKey k v l → p = (k, v) ∨ p ∈ l
  | [] => by
    intro h
    rw [setKey] at h
    exact Or.inl (List.mem_singleton.mp h)
  | (k2, v2) :: rest => by
    intro h
    rw [setKey] at h
    by_cases hk : k = k2
    · rw [if_pos hk] at h
      rcases List.mem_cons.mp h with h2 | h2
      · exact Or.inl h2
      · exact Or.inr (List.mem_cons_of_mem _ h2)
    · rw [if_neg hk] at h
      rcases List.mem_cons.mp h with h2 | h2
      · exact Or.inr (h2 ▸ List.mem_cons_self _ _)
      · rcases mem_setKey h2 with h3 | h3
        · exact Or.inl h3
        · exact Or.inr (List.mem_cons_of_mem _ h3)

/-- Refilling does not change the bucket's tier. -/
theorem refill_tokens_tier (now : ℤ) (q : UserQuota) :
    (refill_tokens now q).tier = q.tier := by
  simp only [refill_tokens]
  split <;> rfl

/-- Refilling does not change the monthly counter. -/
theorem refill_tokens_month_requests (now : ℤ) (q : UserQuota) :
    (refill_tokens now q).month_requests = q.month_requests := by
  simp only [refill_tokens]
  split <;> rfl

/-- The monthly check is insensitive to a refill. -/
theorem check_monthly_quota_refill (now : ℤ) (q : UserQuota) :
    check_monthly_quota (refill_tokens now q) = check_monthly_quota q := by
  rw [check_monthly_quota, check_monthly_quota, refill_tokens_tier,
    refill_tokens_month_requests]

/-- Bumping the request metric leaves endpoint costs unchanged. -/
theorem endpoint_cost_metrics (s : ServiceState) (ep : String) (n : ℕ) :
    endpoint_cost { s with metrics_total_requests := n } ep = endpoint_cost s ep :=
  rfl

/-- Helper: the bucket size of a tier with a finite per-minute limit `l`
is `l` itself. -/
theorem get_token_bucket_size_of_finite {tier : QuotaTier} {l : ℕ}
    (h : (tier_limits tier).1 = some l) :
    get_token_bucket_size tier = (l : ℚ) := by
  simp [get_token_bucket_size, get_minute_limit, h]

/-- C1: for a bucket whose tier has a finite per-minute limit `l`, the
refill at time `now` is a no-op when fewer than 60 seconds have elapsed
since `last_refill`; once at least 60 seconds have elapsed it sets
`available_tokens` to `min (l × 1.5) (available_tokens + l × elapsed/60)`
and stamps `last_refill = now`; in particular a fully-exhausted bucket
refills to at least `l` tokens. -/
theorem C1_refill_tokens (q : UserQuota) (now : ℤ) (l : ℕ)
    (hfin : (tier_limits q.tier).1 = some l) :
    (now - q.last_refill < 60 → refill_tokens now q = q) ∧
    (60 ≤ now - q.last_refill →
      (refill_tokens now q).available_tokens =
        min ((l : ℚ) * (3 / 2))
          (q.available_tokens + (l : ℚ) * (((now - q.last_refill : ℤ) : ℚ) / 60)) ∧
      (refill_tokens now q).last_refill = now) ∧
    (q.available_tokens = 0 → 60 ≤ now - q.last_refill →
      (l : ℚ) ≤ (refill_tokens now q).available_tokens) := by
  have hbs := get_token_bucket_size_of_finite hfin
  refine ⟨?_, ?_, ?_⟩
  · intro h
    simp [refill_tokens, h]
  · intro h
    simp only [refill_tokens, if_neg (not_lt.mpr h), hbs, qMin_eq, qMul_eq,
      qAdd_eq, mkRat_cast_div]
    norm_num
  · intro hz h
    simp only [refill_tokens, if_neg (not_lt.mpr h), hbs, hz, qMin_eq,
      qMul_eq, qAdd_eq, mkRat_cast_div]
    have hl0 : (0 : ℚ) ≤ (l : ℚ) := by positivity
    have h60 : (60 : ℚ) ≤ ((now - q.last_refill : ℤ) : ℚ) := by
      exact_mod_cast h
    have hfrac : (1 : ℚ) ≤ ((now - q.last_refill : ℤ) : ℚ) / 60 := by
      rw [le_div_iff₀ (by norm_num : (0 : ℚ) < 60)]
      linarith
    refine le_min (by push_cast; linarith) ?_
    have h2 := mul_le_mul_of_nonneg_left hfrac hl0
    push_cast at h2 ⊢
    linarith

/-- Witness for C1 at a concrete exhausted Free-tier bucket, 60 idle
seconds, limit 100. -/
theorem C1_refill_tokens_witness :
    (tier_limits QuotaTier.Free).1 = some 100 ∧
    (100 : ℚ) ≤ (refill_tokens 60
      { user_id := "u", tier := .Free, available_tokens := 0,
        last_refill := 0 }).available_tokens := by
  refine ⟨rfl, ?_⟩
  exact (C1_refill_tokens
    { user_id := "u", tier := .Free, available_tokens := 0, last_refill := 0 }
    60 100 rfl).2.2 rfl (by norm_num)

/-- Bucket sizes are nonnegative. -/
theorem get_token_bucket_size_nonneg (tier : QuotaTier) :
    0 ≤ get_token_bucket_size tier := by
  rw [get_token_bucket_size]
  positivity

/-- A refill never drives the token count negative. -/
theorem refill_tokens_nonneg (now : ℤ) (q : UserQuota)
    (h : 0 ≤ q.available_tokens) :
    0 ≤ (refill_tokens now q).available_tokens := by
  simp only [refill_tokens]
  split
  next => exact h
  next hlt =>
    simp only [qMin_eq, qMul_eq, qAdd_eq, mkRat_cast_div]
    have hb := get_token_bucket_size_nonneg q.tier
    have htp : (60 : ℚ) ≤ ((now - q.last_refill : ℤ) : ℚ) := by
      exact_mod_cast not_lt.mp hlt
    have h1 : (0 : ℚ) ≤
        get_token_bucket_size q.tier * (((now - q.last_refill : ℤ) : ℚ) / ((60 : ℕ) : ℚ)) :=
      mul_nonneg hb (div_nonneg (by linarith) (by norm_num))
    refine le_min (by positivity) (by push_cast at h1 ⊢; linarith)

/-- A refill keeps the bucket invariant. -/
theorem refill_tokens_inv (now : ℤ) (q : UserQuota) (h : QuotaInv q) :
    QuotaInv (refill_tokens now q) := by
  obtain ⟨h0, h1⟩ := h
  refine ⟨refill_tokens_nonneg now q h0, ?_⟩
  rw [refill_tokens_tier]
  simp only [refill_tokens]
  split
  next => exact h1
  next hlt =>
    simp only [qMin_eq, qMul_eq, mkRat_cast_div]
    refine le_trans (min_le_left _ _) ?_
    push_cast
    norm_num

/-- Consuming an affordable, nonnegative cost keeps the bucket invariant. -/
theorem consume_inv (q : UserQuota) (c : ℚ) (h : QuotaInv q) (hc : 0 ≤ c)
    (hq : c ≤ q.available_tokens) : QuotaInv (q.consume c) := by
  obtain ⟨h0, h1⟩ := h
  constructor
  · simp only [UserQuota.consume, qSub_eq]
    linarith
  · simp only [UserQuota.consume, qSub_eq]
    linarith

/-- A freshly created bucket satisfies the invariant. -/
theorem fresh_quota_inv (uid : String) (now : ℤ) (tier : QuotaTier) :
    QuotaInv
      { user_id := uid, tier := tier,
        available_tokens := get_token_bucket_size tier, last_refill := now } := by
  have hb := get_token_bucket_size_nonneg tier
  exact ⟨hb, by linarith⟩

/-- With nonnegative registered costs, every endpoint cost (registered or
default) is nonnegative. -/
theorem endpoint_cost_nonneg (s : ServiceState) (ep : String)
    (he : EndpointCostsNonneg s) : 0 ≤ endpoint_cost s ep := by
  rw [endpoint_cost]
  cases hg : getKey ep s.endpoints with
  | none => norm_num [Option.getD]
  | some cfg =>
    simpa [Option.getD] using he (ep, cfg) (getKey_mem hg)

/-- Updating a map with an invariant-satisfying bucket preserves the
map-wide invariant. -/
theorem QuotasInv_setKey {l : List (String × UserQuota)} {uid : String}
    {q : UserQuota} (hl : QuotasInv l) (hq : QuotaInv q) :
    QuotasInv (setKey uid q l) := by
  intro p hp
  rcases mem_setKey hp with h | h
  · rw [h]
    exact hq
  · exact hl p h

/-- One `check_limit` call preserves the service invariant and never
touches the endpoint registry. -/
theorem check_limit_inv (s : ServiceState) (now : ℤ) (uid : Option String)
    (tier : QuotaTier) (ep : String) (ip : Option String)
    (hs : StateInv s) (he : EndpointCostsNonneg s) :
    StateInv (check_limit s now uid tier ep ip).2 ∧
    (check_limit s now uid tier ep ip).2.endpoints = s.endpoints := by
  have hc : 0 ≤ endpoint_cost
      { s with metrics_total_requests := s.metrics_total_requests + 1 } ep :=
    endpoint_cost_nonneg s ep he
  cases uid with
  | none =>
    simp only [check_limit]
    split
    next => exact ⟨hs, rfl⟩
    next => exact ⟨hs, rfl⟩
  | some u =>
    cases hget : getKey u s.user_quotas with
    | some q0 =>
      have hq0 : QuotaInv q0 := hs _ (getKey_mem hget)
      simp only [check_limit, get_or_create_user_quota, hget, check_minute_limit]
      split
      next hm =>
        split
        next hq2 =>
          rw [UserQuota.has_quota, decide_eq_true_eq] at hq2
          refine ⟨?_, rfl⟩
          exact QuotasInv_setKey
            (QuotasInv_setKey hs (refill_tokens_inv now q0 hq0))
            (consume_inv _ _ (refill_tokens_inv now q0 hq0) hc hq2)
        next hq2 =>
          exact ⟨QuotasInv_setKey hs (refill_tokens_inv now q0 hq0), rfl⟩
      next hm =>
        exact ⟨hs, rfl⟩
    | none =>
      have hq0 := fresh_quota_inv u now tier
      simp only [check_limit, get_or_create_user_quota, hget, check_minute_limit]
      split
      next hm =>
        split
        next hq2 =>
          rw [UserQuota.has_quota, decide_eq_true_eq] at hq2
          refine ⟨?_, rfl⟩
          exact QuotasInv_setKey
            (QuotasInv_setKey (QuotasInv_setKey hs hq0)
              (refill_tokens_inv now _ hq0))
            (consume_inv _ _ (refill_tokens_inv now _ hq0) hc hq2)
        next hq2 =>
          exact ⟨QuotasInv_setKey (QuotasInv_setKey hs hq0)
            (refill_tokens_inv now _ hq0), rfl⟩
      next hm =>
        exact ⟨QuotasInv_setKey hs hq0, rfl⟩

/-- One operation preserves the invariant and cost-nonnegativity. -/
theorem applyOp_inv (s : ServiceState) (op : Op) (h : StateInv s)
    (he : EndpointCostsNonneg s) (hop : opCostNonneg op) :
    StateInv (applyOp s op) ∧ EndpointCostsNonneg (applyOp s op) := by
  cases op with
  | register ep c =>
    refine ⟨h, ?_⟩
    intro p hp
    simp only [applyOp, register_endpoint] at hp
    rcases mem_setKey hp with h2 | h2
    · rw [h2]
      exact hop
    · exact he p h2
  | refill now uid =>
    cases hg : getKey uid s.user_quotas with
    | none =>
      simp only [applyOp, hg]
      exact ⟨h, he⟩
    | some q =>
      refine ⟨?_, ?_⟩
      · simp only [applyOp, hg]
        exact QuotasInv_setKey h (refill_tokens_inv now q (h _ (getKey_mem hg)))
      · simp only [applyOp, hg]
        exact he
  | check now uid tier ep ip =>
    have h2 := check_limit_inv s now uid tier ep ip h he
    refine ⟨h2.1, ?_⟩
    intro p hp
    simp only [applyOp] at hp
    rw [h2.2] at hp
    exact he p hp

/-- A whole operation sequence preserves the invariant and
cost-nonnegativity. -/
theorem applyOps_inv (ops : List Op) :
    ∀ s, StateInv s → EndpointCostsNonneg s → (∀ op ∈ ops, opCostNonneg op) →
      StateInv (applyOps s ops) ∧ EndpointCostsNonneg (applyOps s ops) := by
  induction ops with
  | nil =>
    intro s h he _
    exact ⟨h, he⟩
  | cons op rest ih =>
    intro s h he hops
    have hstep := applyOp_inv s op h he (hops op (List.mem_cons_self _ _))
    have := ih (applyOp s op) hstep.1 hstep.2
      (fun o ho => hops o (List.mem_cons_of_mem _ ho))
    simpa [applyOps, List.foldl_cons] using this

/-- C4: starting from the fresh service, after any sequence of endpoint
registrations with nonnegative costs, refills and `check_limit` calls,
every stored bucket satisfies `0 ≤ available_tokens ≤ perMinuteLimit(tier)
× 1.5`: buckets are created full, refills cap at 1.5 × the limit, and
tokens are consumed only when affordable. -/
theorem C4_token_bounds (ops : List Op) (h : ∀ op ∈ ops, opCostNonneg op) :
    StateInv (applyOps initialState ops) :=
  (applyOps_inv ops initialState
    (by intro p hp; simp [initialState] at hp)
    (by intro p hp; simp [initialState] at hp) h).1

/-- Witness for C4 on a concrete mixed operation sequence. -/
theorem C4_token_bounds_witness :
    (∀ op ∈ c4Ops, opCostNonneg op) ∧ StateInv (applyOps initialState c4Ops) :=
  ⟨by decide, C4_token_bounds c4Ops (by decide)⟩

/-- C3: for an identity whose stored bucket has a finite, already-exhausted
monthly quota, `check_limit` fails with `monthly_quota_exceeded` carrying
`retry_after = 86400` seconds, regardless of available tokens; and a
`rate_limit_exceeded` failure (carrying `retry_after = 60`) happens only
when the monthly check passes on the stored (refilled) bucket and that
bucket holds fewer tokens than the endpoint cost: the monthly check takes
precedence over the minute check. -/
theorem C3_monthly_precedence (s : ServiceState) (now : ℤ) (uid : String)
    (tier : QuotaTier) (ep : String) (ip : Option String) :
    (∀ q mq, getKey uid s.user_quotas = some q →
      (tier_limits q.tier).2 = some mq → mq ≤ q.month_requests →
      ∃ e, (check_limit s now (some uid) tier ep ip).1 = .error e ∧
        e.error_type = "monthly_quota_exceeded" ∧ e.retry_after = 86400) ∧
    (∀ e, (check_limit s now (some uid) tier ep ip).1 = .error e →
      e.error_type = "rate_limit_exceeded" →
      e.retry_after = 60 ∧
      ∃ q2, getKey uid (check_limit s now (some uid) tier ep ip).2.user_quotas
          = some q2 ∧
        check_monthly_quota q2 = true ∧
        q2.available_tokens < endpoint_cost s ep) := by
  constructor
  · intro q mq hq hmq hge
    have hmono : check_monthly_quota q = false := by
      rw [check_monthly_quota, hmq]
      simp [not_lt.mpr hge]
    simp only [check_limit, get_or_create_user_quota]
    rw [hq]
    simp [hmono]
  · intro e he htype
    revert he
    cases hget : getKey uid s.user_quotas with
    | some q0 =>
      simp only [check_limit, get_or_create_user_quota, hget, check_minute_limit]
      split
      next hm =>
        split
        next hq2 =>
          intro he
          simp at he
        next hq2 =>
          intro he
          injection he with he2
          subst he2
          refine ⟨rfl, refill_tokens now q0, ?_, ?_, ?_⟩
          · exact getKey_setKey_self uid _ _
          · rw [check_monthly_quota_refill]
            exact hm
          · have hfalse := Bool.of_not_eq_true hq2
            rw [UserQuota.has_quota, decide_eq_false_iff_not] at hfalse
            exact not_le.mp hfalse
      next hm =>
        intro he
        injection he with he2
        subst he2
        simp at htype
    | none =>
      simp only [check_limit, get_or_create_user_quota, hget, check_minute_limit]
      split
      next hm =>
        split
        next hq2 =>
          intro he
          simp at he
        next hq2 =>
          intro he
          injection he with he2
          subst he2
          refine ⟨rfl, _, getKey_setKey_self uid _ _, ?_, ?_⟩
          · rw [check_monthly_quota_refill]
            exact hm
          · have hfalse := Bool.of_not_eq_true hq2
            rw [UserQuota.has_quota, decide_eq_false_iff_not] at hfalse
            exact not_le.mp hfalse
      next hm =>
        intro he
        injection he with he2
        subst he2
        simp at htype

/-- Witness for C3: the month-exhausted bucket `qC3` (with 5 tokens still
available) is rejected with the monthly error and a 86400-second
retry-after. -/
theorem C3_monthly_precedence_witness :
    getKey "u" sC3.user_quotas = some qC3 ∧
    (tier_limits qC3.tier).2 = some 50000 ∧
    50000 ≤ qC3.month_requests ∧
    (0 : ℚ) < qC3.available_tokens ∧
    ∃ e, (check_limit sC3 0 (some "u") .Free "lookup" none).1 = .error e ∧
      e.error_type = "monthly_quota_exceeded" ∧ e.retry_after = 86400 :=
  ⟨by decide, by decide, by decide, by decide,
    (C3_monthly_precedence sC3 0 "u" .Free "lookup" none).1 qC3 50000
      (by decide) (by decide) (by decide)⟩

set_option maxRecDepth 100000 in
/-- C2: from a fresh Free-tier identity (bucket created with 100 tokens)
on a non-advancing clock, 100 consecutive `check_limit` calls at endpoint
cost 1.0 all succeed and the 101st raises `rate_limit_exceeded`; at cost
2.0 exactly 50 succeed and the 51st raises `rate_limit_exceeded`.  The
third conjunct exhibits the bucket after the first cost-1 call: created
with 100 tokens, one consumed. -/
theorem C2_exact_exhaustion :
    ((c2Run 1 100).1 = true ∧
      errType (check_limit (c2Run 1 100).2 0 (some "alice") .Free
        "fingerprint" none) = some "rate_limit_exceeded") ∧
    ((c2Run 2 50).1 = true ∧
      errType (check_limit (c2Run 2 50).2 0 (some "alice") .Free
        "fingerprint" none) = some "rate_limit_exceeded") ∧
    getKey "alice" (c2Run 1 1).2.user_quotas =
      some { user_id := "alice", tier := .Free, available_tokens := 99,
             last_refill := 0, month_requests := 1, total_requests := 1 } := by
  refine ⟨⟨by decide, by decide⟩, ⟨by decide, by decide⟩, by decide⟩

/-- C10: the derived metrics are total on the zero-denominator edge cases:
with no requests the reported rejection rate is 0, and with no cache
lookups the reported cache-hit ratio is 0. -/
theorem C10_zero_denominators (s : ServiceState) :
    (s.metrics_total_requests = 0 → (get_metrics s).rejection_rate = 0) ∧
    (s.metrics_cache_hits + s.metrics_cache_misses = 0 →
      (get_metrics s).cache_hit_ratio = 0) := by
  constructor
  · intro h
    simp [get_metrics, h]
  · intro h
    simp [get_metrics, h]

/-- C7 counterexample: a zero-cost endpoint does not always pass trivially.
In `sC7` the endpoint "health" is registered with cost 0.0 and the
identity "u" still has 5 tokens, yet `check_limit` raises
`monthly_quota_exceeded` because the month is exhausted. -/
theorem C7_zero_cost_counterexample :
    endpoint_cost sC7 "health" = 0 ∧
    (0 : ℚ) < qC3.available_tokens ∧
    errType (check_limit sC7 0 (some "u") .Free "health" none) =
      some "monthly_quota_exceeded" := by
  refine ⟨by decide, by decide, by decide⟩

/-- C7 (amended): an authenticated `check_limit` call on an endpoint of
cost 0.0 never raises `rate_limit_exceeded` (provided the stored bucket,
if any, holds a nonnegative token count, which every reachable state
satisfies); the only failure it can surface is `monthly_quota_exceeded`
when the monthly quota is exhausted. -/
theorem C7_zero_cost_amended (s : ServiceState) (now : ℤ) (uid : String)
    (tier : QuotaTier) (ep : String) (ip : Option String)
    (hc : endpoint_cost s ep = 0)
    (hq : ∀ q, getKey uid s.user_quotas = some q → 0 ≤ q.available_tokens) :
    ∀ e, (check_limit s now (some uid) tier ep ip).1 = .error e →
      e.error_type = "monthly_quota_exceeded" := by
  intro e
  cases hget : getKey uid s.user_quotas with
  | some q0 =>
    simp only [check_limit, get_or_create_user_quota, hget, check_minute_limit]
    split
    next hm =>
      split
      next hq2 =>
        intro he
        simp at he
      next hq2 =>
        exfalso
        apply hq2
        rw [UserQuota.has_quota, decide_eq_true_eq, endpoint_cost_metrics, hc]
        exact refill_tokens_nonneg now q0 (hq q0 hget)
    next hm =>
      intro he
      injection he with he2
      subst he2
      rfl
  | none =>
    simp only [check_limit, get_or_create_user_quota, hget, check_minute_limit]
    split
    next hm =>
      split
      next hq2 =>
        intro he
        simp at he
      next hq2 =>
        exfalso
        apply hq2
        rw [UserQuota.has_quota, decide_eq_true_eq, endpoint_cost_metrics, hc]
        exact refill_tokens_nonneg now _ (get_token_bucket_size_nonneg tier)
    next hm =>
      intro he
      injection he with he2
      subst he2
      rfl

/-- Witness for C7 (amended): on a fresh service with a zero-cost
endpoint, an authenticated call yields no error at all. -/
theorem C7_zero_cost_amended_witness :
    endpoint_cost (register_endpoint initialState "health" 0) "health" = 0 ∧
    (∀ e, (check_limit (register_endpoint initialState "health" 0) 0
      (some "u") .Free "health" none).1 = .error e →
      e.error_type = "monthly_quota_exceeded") :=
  ⟨by decide,
    C7_zero_cost_amended (register_endpoint initialState "health" 0) 0 "u"
      .Free "health" none (by decide) (by intro q h; simp [getKey] at h)⟩

/-- C9 counterexample: the bucket `qC9` has been idle for 120 ≥ 60
seconds, so the spec's refill-first order would stamp
`lastRefill = 120`; the code instead fails the monthly check first and
leaves the bucket untouched (`lastRefill` stays 0), even though a refill
would have changed it. -/
theorem C9_refill_order_counterexample :
    errType (check_limit sC9 120 (some "u") .Free "lookup" none) =
      some "monthly_quota_exceeded" ∧
    getKey "u" (check_limit sC9 120 (some "u") .Free "lookup" none).2.user_quotas
      = some qC9 ∧
    qC9.last_refill = 0 ∧
    (refill_tokens 120 qC9).last_refill = 120 ∧
    (refill_tokens 120 qC9).available_tokens = 150 := by
  refine ⟨by decide, by decide, by decide, by decide, by decide⟩

/-- C9 (amended): `check_limit` evaluates the monthly-quota check before
any refill; a call that fails with `monthly_quota_exceeded` leaves the
identity's stored bucket completely unchanged (in particular
`available_tokens` and `last_refill` keep their prior values), no matter
how long the bucket has been idle. -/
theorem C9_no_refill_on_monthly_failure (s : ServiceState) (now : ℤ)
    (uid : String) (tier : QuotaTier) (ep : String) (ip : Option String)
    (q : UserQuota) (mq : ℕ)
    (hq : getKey uid s.user_quotas = some q)
    (hmq : (tier_limits q.tier).2 = some mq)
    (hge : mq ≤ q.month_requests) :
    (∃ e, (check_limit s now (some uid) tier ep ip).1 = .error e ∧
      e.error_type = "monthly_quota_exceeded") ∧
    getKey uid (check_limit s now (some uid) tier ep ip).2.user_quotas = some q := by
  have hmono : check_monthly_quota q = false := by
    rw [check_monthly_quota, hmq]
    simp [not_lt.mpr hge]
  simp only [check_limit, get_or_create_user_quota, hq]
  rw [hmono]
  simp [hq]

/-- Witness for C9 (amended) on the idle, month-exhausted bucket `qC9`:
the call at time 120 fails with the monthly error and the stored bucket
still carries `available_tokens = 0` and `last_refill = 0`. -/
theorem C9_no_refill_on_monthly_failure_witness :
    getKey "u" sC9.user_quotas = some qC9 ∧
    (tier_limits qC9.tier).2 = some 50000 ∧
    50000 ≤ qC9.month_requests ∧
    ((∃ e, (check_limit sC9 120 (some "u") .Free "lookup" none).1 = .error e ∧
        e.error_type = "monthly_quota_exceeded") ∧
      getKey "u" (check_limit sC9 120 (some "u") .Free "lookup"
        none).2.user_quotas = some qC9) :=
  ⟨by decide, by decide, by decide,
    C9_no_refill_on_monthly_failure sC9 120 "u" .Free "lookup" none qC9 50000
      (by decide) (by decide) (by decide)⟩

/-- C5 counterexample: the IP window counts in truncated integers, not in
the claim's exact costs.  In `sC5` the window for the IP holds count 30
and the endpoint costs 3/5, so the claim (`fails exactly when
count + c > 30`) demands a failure (30 + 3/5 > 30); the code truncates
`int(0.6) = 0` and allows the request, leaving the stored count at 30. -/
theorem C5_ip_window_counterexample :
    (30 : ℚ) + mkRat 3 5 > 30 ∧
    errType (check_limit sC5 0 none .Free "cheap" (some "203.0.113.9")) = none ∧
    getKey "203.0.113.9"
      (check_limit sC5 0 none .Free "cheap" (some "203.0.113.9")).2.ip_quotas =
      some (0, 30) := by
  refine ⟨?_, by decide, by decide⟩
  rw [mkRat_cast_div]
  norm_num

set_option maxRecDepth 100000 in
/-- C5 (amended): the unauthenticated window arithmetic is carried out on
Python `int(cost)`, the cost truncated toward zero.  With no window a new
one is created holding `count = int(c)` and the request is allowed; after
more than 60 seconds the window resets to `count = int(c)` and the request
is allowed; otherwise the request is rejected exactly when
`count + int(c) > 30` and otherwise allowed with `count += int(c)`.  In
particular, with cost 1.0, exactly 30 requests per window succeed and the
31st raises `rate_limit_exceeded`. -/
theorem C5_ip_window_amended (now : ℤ) (ip : String) (c : ℚ)
    (ipq : List (String × ℤ × ℤ)) :
    (getKey ip ipq = none →
      check_ip_limit now (some ip) c ipq =
        (true, setKey ip (now, pyInt c) ipq)) ∧
    (∀ ws cnt, getKey ip ipq = some (ws, cnt) →
      (60 < now - ws →
        check_ip_limit now (some ip) c ipq =
          (true, setKey ip (now, pyInt c) ipq)) ∧
      (now - ws ≤ 60 →
        (30 < cnt + pyInt c →
          check_ip_limit now (some ip) c ipq = (false, ipq)) ∧
        (cnt + pyInt c ≤ 30 →
          check_ip_limit now (some ip) c ipq =
            (true, setKey ip (ws, cnt + pyInt c) ipq)))) ∧
    ((c5Run 30).1 = true ∧
      errType (check_limit (c5Run 30).2 0 none .Free "lookup"
        (some "203.0.113.9")) = some "rate_limit_exceeded") := by
  refine ⟨?_, ?_, by decide, by decide⟩
  · intro h
    simp [check_ip_limit, h]
  · intro ws cnt h
    refine ⟨?_, ?_⟩
    · intro hreset
      simp [check_ip_limit, h, hreset]
    · intro hin
      refine ⟨?_, ?_⟩
      · intro hover
        simp [check_ip_limit, h, not_lt.mpr hin, hover]
      · intro hfit
        simp [check_ip_limit, h, not_lt.mpr hin, not_lt.mpr hfit]

/-- Witness for C5 (amended): a first request from a fresh IP at cost 1
creates a window with integer count 1 and is allowed. -/
theorem C5_ip_window_amended_witness :
    getKey "1.2.3.4" ([] : List (String × ℤ × ℤ)) = none ∧
    check_ip_limit 7 (some "1.2.3.4") 1 [] =
      (true, setKey "1.2.3.4" (7, pyInt 1) []) :=
  ⟨rfl, (C5_ip_window_amended 7 "1.2.3.4" 1 []).1 rfl⟩

/-- C8: every `check_limit` call increments the total-requests metric by
exactly one; the rejected metric grows by exactly one on an error and is
unchanged on success; the exported rejection rate equals
rejected/total (the guard value 0 agreeing with the convention 0/0 = 0);
and every one of the six required series names occurs in a line of the
Prometheus text export. -/
theorem C8_metrics (s : ServiceState) (now : ℤ) (uid : Option String)
    (tier : QuotaTier) (ep : String) (ip : Option String) :
    ((check_limit s now uid tier ep ip).2.metrics_total_requests =
      s.metrics_total_requests + 1) ∧
    ((check_limit s now uid tier ep ip).2.metrics_total_rejected =
      if isOk (check_limit s now uid tier ep ip).1 then
        s.metrics_total_rejected
      else s.metrics_total_rejected + 1) ∧
    ((get_metrics s).rejection_rate =
      (s.metrics_total_rejected : ℚ) / (s.metrics_total_requests : ℚ)) ∧
    (∀ name ∈ requiredSeriesNames, ∃ l ∈ get_prometheus_lines s,
      List.IsInfix name.toList l.toList) := by
  refine ⟨?_, ?_, ?_, ?_⟩
  · cases uid with
    | none =>
      simp only [check_limit]
      split <;> rfl
    | some u =>
      cases hget : getKey u s.user_quotas with
      | some q0 =>
        simp only [check_limit, get_or_create_user_quota, hget,
          check_minute_limit]
        split
        next => split <;> rfl
        next => rfl
      | none =>
        simp only [check_limit, get_or_create_user_quota, hget,
          check_minute_limit]
        split
        next => split <;> rfl
        next => rfl
  · cases uid with
    | none =>
      simp only [check_limit]
      split <;> rfl
    | some u =>
      cases hget : getKey u s.user_quotas with
      | some q0 =>
        simp only [check_limit, get_or_create_user_quota, hget,
          check_minute_limit]
        split
        next => split <;> rfl
        next => rfl
      | none =>
        simp only [check_limit, get_or_create_user_quota, hget,
          check_minute_limit]
        split
        next => split <;> rfl
        next => rfl
  · simp only [get_metrics]
    split
    next h =>
      rw [mkRat_cast_div]
      norm_num
    next h =>
      rw [Nat.eq_zero_of_not_pos h]
      norm_num
  · intro name hname
    simp only [requiredSeriesNames, List.mem_cons,
      List.not_mem_nil, or_false] at hname
    rcases hname with rfl | rfl | rfl | rfl | rfl | rfl
    · exact ⟨"# HELP rate_limit_total_requests Total requests processed",
        by simp [get_prometheus_lines], by decide⟩
    · exact ⟨"# HELP rate_limit_rejected_total Total requests rejected",
        by simp [get_prometheus_lines], by decide⟩
    · exact ⟨"# HELP rate_limit_rejection_ratio Request rejection ratio",
        by simp [get_prometheus_lines], by decide⟩
    · exact ⟨"# HELP cache_hits_total Cache hit count",
        by simp [get_prometheus_lines], by decide⟩
    · exact ⟨"# HELP cache_hit_ratio Cache hit ratio",
        by simp [get_prometheus_lines], by decide⟩
    · exact ⟨"# HELP rate_limit_active_users Active users count",
        by simp [get_prometheus_lines], by decide⟩

/-- Witness for C8 at the fresh service: one call bumps the request
counter to one, and the series name `cache_hit_ratio` indeed appears in a
line of the export. -/
theorem C8_metrics_witness :
    ((check_limit initialState 0 (some "u") .Free "x" none).2.metrics_total_requests
      = initialState.metrics_total_requests + 1) ∧
    "cache_hit_ratio" ∈ requiredSeriesNames ∧
    ∃ l ∈ get_prometheus_lines initialState,
      List.IsInfix "cache_hit_ratio".toList l.toList :=
  ⟨(C8_metrics initialState 0 (some "u") .Free "x" none).1, by decide,
    (C8_metrics initialState 0 (some "u") .Free "x" none).2.2.2
      "cache_hit_ratio" (by decide)⟩

/-- Witness for C10 on the freshly constructed service. -/
theorem C10_zero_denominators_witness :
    initialState.metrics_total_requests = 0 ∧
    initialState.metrics_cache_hits + initialState.metrics_cache_misses = 0 ∧
    (get_metrics initialState).rejection_rate = 0 ∧
    (get_metrics initialState).cache_hit_ratio = 0 := by
  refine ⟨rfl, rfl, (C10_zero_denominators initialState).1 rfl,
    (C10_zero_denominators initialState).2 rfl⟩

end RateLimitSvc
